import Mathlib

/-!
Verification development for the ESP-IDF task-watchdog supervision example
(`src/esp-idf/minions/watchdog/watchdog_multi_task.c` and
`src/esp-idf/minions/watchdog/main.c`).

The C sources are shallowly embedded here:
* diagnostic messages are lists of characters; C `strstr` is `hasSub`;
* the attributor's three file-scope globals (`capturing_task_name`,
  `task_name_captured`, `failed_task_name`) become the fields of `AttrState`;
* `twdt_msg_handler` is a step function on `AttrState`, one call per message;
* one iteration of each `recovery_task` loop body becomes a pure function
  from its inputs (the event bits it woke with, the sticky flag, the
  diagnostic report delivered by `esp_task_wdt_print_triggered_tasks`) to a
  record of its observable effects;
* the program state shared between contexts becomes `SysState`, with one
  `sysStep` case per code path of the program that touches it.
-/

namespace Watchdog

/-- `leadsWith needle hay` is true when `needle` occurs at the start of
`hay` (the inner loop of C `strstr`). -/
def leadsWith : List Char → List Char → Bool
  | [], _ => true
  | _ :: _, [] => false
  | n :: ns, h :: hs => n == h && leadsWith ns hs

/-- `hasSub needle hay` models `strstr(hay, needle) != NULL`: `needle`
occurs contiguously somewhere in `hay`. -/
def hasSub (needle : List Char) : List Char → Bool
  | [] => leadsWith needle []
  | c :: rest => leadsWith needle (c :: rest) || hasSub needle rest

/-- `#define MAX_TASK_NAME_LEN 32` (watchdog_multi_task.c line 30). -/
def MAX_TASK_NAME_LEN : Nat := 32

/-- The header marker `" -"` searched for at watchdog_multi_task.c line 64. -/
def headerMarker : List Char := " -".toList

/-- The terminator marker `"(CPU"` searched for at lines 71 and 81. -/
def cpuMarker : List Char := "(CPU".toList

/-- The attributor's scratch state: the three file-scope globals of
watchdog_multi_task.c lines 31-33. `failed_task_name` holds the characters
before the terminating NUL of the C buffer. -/
structure AttrState where
  capturing_task_name : Bool
  task_name_captured : Bool
  failed_task_name : List Char
deriving Repr, DecidableEq

/-- The state after the reset block at the top of a recovery cycle
(watchdog_multi_task.c lines 223-225): both flags cleared and
`failed_task_name[0] = '\0'`. -/
def resetAttr : AttrState :=
  { capturing_task_name := false, task_name_captured := false,
    failed_task_name := [] }

/-- `twdt_msg_handler` (watchdog_multi_task.c lines 62-84), one call per
message fragment.  A fragment containing `" -"` starts a new entry (resets
the buffer and returns); otherwise, while capturing, a fragment without
`"(CPU"` and with `strlen < MAX_TASK_NAME_LEN` is copied into the buffer by
`strncpy(buf, msg, MAX_TASK_NAME_LEN - 1)` with a forced final NUL; a
fragment containing `"(CPU"` ends capturing. -/
def twdt_msg_handler (s : AttrState) (msg : List Char) : AttrState :=
  if hasSub headerMarker msg then
    { s with capturing_task_name := true, failed_task_name := [] }
  else
    let s1 :=
      if s.capturing_task_name && !(hasSub cpuMarker msg) then
        if msg.length < MAX_TASK_NAME_LEN then
          { s with failed_task_name := msg.take (MAX_TASK_NAME_LEN - 1),
                   task_name_captured := true }
        else s
      else s
    if hasSub cpuMarker msg then { s1 with capturing_task_name := false } else s1

/-- Running the attributor over a whole diagnostic report from the reset
state, as one recovery cycle does: the reset block followed by
`esp_task_wdt_print_triggered_tasks(twdt_msg_handler, NULL, ...)`, which
feeds the report fragments to the handler in order. -/
def processReport (msgs : List (List Char)) : AttrState :=
  msgs.foldl twdt_msg_handler resetAttr

/-- `#define WATCHDOG_TIMEOUT_MS 5000` (both files). -/
def WATCHDOG_TIMEOUT_MS : Nat := 5000

/-- `STATUS_LED` is GPIO 2 (both files). -/
def STATUS_LED : Nat := 2

/-- `STATUS_LED_2` is GPIO 15 (watchdog_multi_task.c line 18). -/
def STATUS_LED_2 : Nat := 15

/-- The `esp_task_wdt_config_t` value built by `init_watchdog`. -/
structure TwdtConfig where
  timeout_ms : Nat
  idle_core_mask : Nat
  trigger_panic : Bool
deriving Repr, DecidableEq

/-- The configuration passed to `esp_task_wdt_init` by `init_watchdog`
(watchdog_multi_task.c lines 109-113 and main.c lines 72-76, identical). -/
def twdt_config : TwdtConfig :=
  { timeout_ms := WATCHDOG_TIMEOUT_MS, idle_core_mask := 0,
    trigger_panic := false }

/-- What the external watchdog subsystem does when a lease expires. -/
inductive ExpiryOutcome where
  | abortProcess
  | invokeHandler
deriving Repr, DecidableEq

/-- Modelled from the spec: the external task-watchdog subsystem
(`esp_task_wdt`, an external collaborator, not part of this repository)
aborts the process on expiry when `trigger_panic` is set, and otherwise only
invokes the registered user handler (`panic_on_expiry: bool — when false
(the operative mode here), expiry must never abort the process`). -/
def expiryOutcome (cfg : TwdtConfig) : ExpiryOutcome :=
  if cfg.trigger_panic then ExpiryOutcome.abortProcess
  else ExpiryOutcome.invokeHandler

/-- A unit-specific recovery action: the bounded blink pattern
`for (i = 0; i < count; i++) { led on; 100ms; led off; 100ms; }`. -/
inductive RecoveryAction where
  | blink (gpio : Nat) (count : Nat)
deriving Repr, DecidableEq

/-- The observable behaviour of one iteration of the multi-task
`recovery_task` loop (watchdog_multi_task.c lines 212-287). -/
structure CycleResult where
  /-- the reset block at lines 223-225 ran -/
  scratch_reset : Bool
  /-- `esp_task_wdt_print_triggered_tasks` was called (line 229) -/
  snapshot_requested : Bool
  /-- the attributor state after the report was processed -/
  attr : AttrState
  /-- `g_watchdog_timeout_occurred` when the iteration ends -/
  flag_after : Bool
  /-- the flag was consumed but no task name was captured, so only the
  generic log-and-return path at lines 251-252/281 ran -/
  dispatched_default : Bool
  /-- the unit-specific blink patterns executed, in order -/
  actions : List RecoveryAction
  /-- the iteration aborted the process (`recovery_task` contains no
  `abort`/`ESP_ERROR_CHECK`: the `esp_err_t` at line 229 is ignored) -/
  aborted : Bool
deriving Repr, DecidableEq

/-- One iteration of the multi-task `recovery_task` loop, as a function of
the event bits the wait returned with (`bits & RECOVERY_ACTIVE_BIT`), the
sticky flag `g_watchdog_timeout_occurred`, and the diagnostic report the
snapshot call feeds to `twdt_msg_handler`.  The scratch reset and the
snapshot request happen unconditionally, before either flag is examined;
dispatch is guarded by `bits & RECOVERY_ACTIVE_BIT` and then by the sticky
flag, which is cleared there. -/
def recovery_task_cycle (bits flag : Bool) (report : List (List Char)) :
    CycleResult :=
  let attr := processReport report
  let fire := bits && flag
  { scratch_reset := true
    snapshot_requested := true
    attr := attr
    flag_after := if fire then false else flag
    dispatched_default := fire && !attr.task_name_captured
    actions :=
      if fire && attr.task_name_captured then
        (if attr.failed_task_name == "test_user".toList then
          [RecoveryAction.blink STATUS_LED 10] else [])
        ++ (if attr.failed_task_name == "test_2_user".toList then
          [RecoveryAction.blink STATUS_LED_2 10] else [])
      else []
    aborted := false }

/-- The observable behaviour of one iteration of the single-task
`recovery_task` loop of main.c (lines 129-165), which never queries the
diagnostic report and keeps no attribution scratch state. -/
structure MainCycleResult where
  scratch_reset : Bool
  snapshot_requested : Bool
  flag_after : Bool
  actions : List RecoveryAction
  aborted : Bool
deriving Repr, DecidableEq

/-- One iteration of main.c's `recovery_task` loop: everything is guarded
by `bits & RECOVERY_ACTIVE_BIT` and the sticky flag; when both hold the
flag is cleared and the single blink pattern runs. -/
def recovery_task_cycle_main (bits flag : Bool) : MainCycleResult :=
  let fire := bits && flag
  { scratch_reset := false
    snapshot_requested := false
    flag_after := if fire then false else flag
    actions := if fire then [RecoveryAction.blink STATUS_LED 10] else []
    aborted := false }

/-- The program state shared between the interrupt context and the normal
tasks, plus the per-task state the other code paths touch
(watchdog_multi_task.c globals and task locals). -/
structure SysState where
  /-- `g_watchdog_timeout_occurred` (line 27) -/
  g_watchdog_timeout_occurred : Bool
  /-- `RECOVERY_ACTIVE_BIT` of `event_group` -/
  recovery_bit : Bool
  /-- `event_group != NULL` (created by `app_main` at line 301) -/
  event_group_created : Bool
  /-- the attributor globals -/
  attr : AttrState
  /-- level of `STATUS_LED` -/
  led_status : Bool
  /-- level of `STATUS_LED_2` -/
  led_status_2 : Bool
  /-- `test_task`'s local `counter` -/
  counter : Int
  /-- `test_2_task`'s local `counter` -/
  counter_2 : Int
deriving Repr, DecidableEq

/-- What the interrupt handler did beyond mutating `SysState`. -/
structure IsrEffects where
  /-- `portYIELD_FROM_ISR()` was requested (line 54) -/
  yield_requested : Bool
  /-- the handler allocated memory (its body never does) -/
  allocated : Bool
  /-- the handler logged (its body never calls `ESP_LOG*`) -/
  logged : Bool
  /-- the handler made a blocking call (its body never does) -/
  blocked : Bool
deriving Repr, DecidableEq

/-- `esp_task_wdt_isr_user_handler` (watchdog_multi_task.c lines 44-57 and
main.c lines 35-48, identical).  `wokeHigher` is the value the RTOS stores
through `&xHigherPriorityTaskWoken` in `xEventGroupSetBitsFromISR`: whether
posting the bit unblocked a higher-priority task.  The body is exactly the
flag store and the guarded bit post; it contains no allocation, no
`ESP_LOG*` call and no blocking call. -/
def esp_task_wdt_isr_user_handler (s : SysState) (wokeHigher : Bool) :
    SysState × IsrEffects :=
  let s1 := { s with g_watchdog_timeout_occurred := true }
  if s.event_group_created then
    ({ s1 with recovery_bit := true },
     { yield_requested := wokeHigher, allocated := false, logged := false,
       blocked := false })
  else
    (s1,
     { yield_requested := false, allocated := false, logged := false,
       blocked := false })

/-- Whether `xEventGroupWaitBits(event_group, RECOVERY_ACTIVE_BIT, pdTRUE,
pdFALSE, portMAX_DELAY)` can return: the coordinator stays blocked until the
recovery bit is posted. -/
def coordReady (s : SysState) : Bool := s.recovery_bit

/-- The code paths of watchdog_multi_task.c that touch `SysState`. -/
inductive SysEvent where
  /-- the watchdog interrupt fires and runs the user handler -/
  | isrFire (wokeHigher : Bool)
  /-- the coordinator wakes and runs one `recovery_task` iteration over the
  given diagnostic report -/
  | coordWake (report : List (List Char))
  /-- one iteration of `test_task` (renews or skips, blinks `STATUS_LED`) -/
  | testTick (renew : Bool)
  /-- one iteration of `test_2_task` -/
  | test2Tick (renew : Bool)
  /-- `app_main` creates the event group (line 301) -/
  | createEventGroup
deriving Repr, DecidableEq

/-- One step of the shared-state transition system: each case mirrors the
writes the corresponding code path performs.  `test_task`/`test_2_task`
touch only their own counter and LED; `app_main`'s initialization only
creates the event group; only the coordinator's iteration writes `false`
into `g_watchdog_timeout_occurred` (line 248), and only after observing the
recovery bit and the flag set. -/
def sysStep : SysEvent → SysState → SysState
  | SysEvent.isrFire w, s => (esp_task_wdt_isr_user_handler s w).1
  | SysEvent.coordWake report, s =>
      let bits := s.recovery_bit
      let attr := processReport report
      let fire := bits && s.g_watchdog_timeout_occurred
      { s with recovery_bit := false
               attr := attr
               g_watchdog_timeout_occurred :=
                 if fire then false else s.g_watchdog_timeout_occurred
               led_status :=
                 if fire && attr.task_name_captured
                     && (attr.failed_task_name == "test_user".toList) then
                   false
                 else s.led_status
               led_status_2 :=
                 if fire && attr.task_name_captured
                     && (attr.failed_task_name == "test_2_user".toList) then
                   false
                 else s.led_status_2 }
  | SysEvent.testTick _, s =>
      { s with counter := s.counter + 1,
               led_status := (s.counter + 1) % 2 == 1 }
  | SysEvent.test2Tick _, s =>
      { s with counter_2 := s.counter_2 + 1,
               led_status_2 := (s.counter_2 + 1) % 2 == 1 }
  | SysEvent.createEventGroup, s => { s with event_group_created := true }

/-! ## Helper lemmas -/

/-- The interrupt handler as a single equation: it sets the sticky flag,
posts the recovery bit exactly when the event group exists, requests a
yield exactly when the post woke a higher-priority task, and changes
nothing else. -/
theorem isr_handler_eq (s : SysState) (w : Bool) :
    esp_task_wdt_isr_user_handler s w =
      ({ s with g_watchdog_timeout_occurred := true,
                recovery_bit := s.event_group_created || s.recovery_bit },
       { yield_requested := s.event_group_created && w, allocated := false,
         logged := false, blocked := false }) := by
  cases h : s.event_group_created <;>
    simp [esp_task_wdt_isr_user_handler, h]

/-- A fragment without the header marker, processed while not capturing,
changes neither flag nor buffer (beyond keeping `capturing` false). -/
theorem twdt_msg_handler_no_header (s : AttrState) (m : List Char)
    (hm : hasSub headerMarker m = false)
    (h1 : s.capturing_task_name = false) :
    (twdt_msg_handler s m).capturing_task_name = false ∧
    (twdt_msg_handler s m).task_name_captured = s.task_name_captured ∧
    (twdt_msg_handler s m).failed_task_name = s.failed_task_name := by
  simp only [twdt_msg_handler, hm, Bool.false_eq_true, if_false, h1,
    Bool.false_and, if_neg]
  split <;> simp [h1]

/-- Over a report none of whose fragments contains the header marker, the
attributor never starts capturing and never captures anything new. -/
theorem foldl_no_header (msgs : List (List Char)) :
    ∀ s : AttrState, (∀ m ∈ msgs, hasSub headerMarker m = false) →
      s.capturing_task_name = false →
      (msgs.foldl twdt_msg_handler s).task_name_captured
          = s.task_name_captured ∧
      (msgs.foldl twdt_msg_handler s).capturing_task_name = false := by
  induction msgs with
  | nil => intro s _ h1; exact ⟨rfl, h1⟩
  | cons m rest ih =>
      intro s hm h1
      have hmh := hm m (List.mem_cons_self m rest)
      obtain ⟨e1, e2, _⟩ := twdt_msg_handler_no_header s m hmh h1
      have hrest : ∀ x ∈ rest, hasSub headerMarker x = false :=
        fun x hx => hm x (List.mem_cons_of_mem m hx)
      have hr := ih (twdt_msg_handler s m) hrest e1
      simp only [List.foldl_cons]
      exact ⟨hr.1.trans e2, hr.2⟩

/-- Each handler step keeps the stored name strictly shorter than the
buffer: a header resets it to empty, a store keeps at most
`MAX_TASK_NAME_LEN - 1` characters, anything else leaves it unchanged. -/
theorem twdt_msg_handler_name_short (s : AttrState) (m : List Char)
    (h : s.failed_task_name.length < MAX_TASK_NAME_LEN) :
    (twdt_msg_handler s m).failed_task_name.length < MAX_TASK_NAME_LEN := by
  unfold twdt_msg_handler
  split
  · simp [MAX_TASK_NAME_LEN]
  · split <;> split <;> simp_all [List.length_take, MAX_TASK_NAME_LEN]

/-- The stored-name bound is preserved by any whole report. -/
theorem foldl_name_short (msgs : List (List Char)) :
    ∀ s : AttrState, s.failed_task_name.length < MAX_TASK_NAME_LEN →
      (msgs.foldl twdt_msg_handler s).failed_task_name.length
        < MAX_TASK_NAME_LEN := by
  induction msgs with
  | nil => intro s h; exact h
  | cons m rest ih =>
      intro s h
      simp only [List.foldl_cons]
      exact ih _ (twdt_msg_handler_name_short s m h)

/-- The fragment stream for an expiry of `test_user`, at the granularity
`esp_task_wdt_print_triggered_tasks` delivers fragments to the handler. -/
def demoReport : List (List Char) :=
  [" - ".toList, "test_user".toList, "0x400d1234 (CPU 0)".toList]

/-- A running system: event group created, flag and bit raised. -/
def demoSys : SysState :=
  { g_watchdog_timeout_occurred := true, recovery_bit := true,
    event_group_created := true, attr := resetAttr, led_status := false,
    led_status_2 := false, counter := 0, counter_2 := 0 }

/-- The system before `app_main` creates the event group. -/
def demoSysEarly : SysState :=
  { demoSys with g_watchdog_timeout_occurred := false,
                 recovery_bit := false, event_group_created := false }

/-! ## Claim theorems -/

/-- C1 counterexample: feeding exactly the two report lines
`" - test_user"` and `"0x400d1234 (CPU 0)"` to the attributor over reset
state captures nothing: the first line itself contains the header marker
`" -"`, so `twdt_msg_handler` only resets the buffer and starts capturing,
and the second line is the terminator, so the run ends with
`task_name_captured = false` and an empty buffer — not `captured = true`
with name `"test_user"` as the claim states. -/
theorem report_two_lines_not_captured :
    processReport [" - test_user".toList, "0x400d1234 (CPU 0)".toList] =
      { capturing_task_name := false, task_name_captured := false,
        failed_task_name := [] } := by decide

/-- C1 (amended): with the header marker, the name and the CPU line as
three separate handler messages `" - "`, `"test_user"`,
`"0x400d1234 (CPU 0)"` (the fragment granularity at which
`esp_task_wdt_print_triggered_tasks` invokes the handler), the attributor
ends with `task_name_captured = true` and name `"test_user"`. -/
theorem report_three_fragments_captured :
    processReport demoReport =
      { capturing_task_name := false, task_name_captured := true,
        failed_task_name := "test_user".toList } := by decide

/-- C2 counterexample: the report `[" - ", "test_user"]` contains no
fragment with the `"(CPU"` terminator marker, yet the attributor ends with
`task_name_captured = true`: capturing does not wait for a terminator, so
the claim's antecedent does not force `captured = false`. -/
theorem no_terminator_yet_captured :
    hasSub cpuMarker (" - ".toList) = false ∧
    hasSub cpuMarker ("test_user".toList) = false ∧
    (processReport [" - ".toList, "test_user".toList]).task_name_captured
        = true := by decide

/-- C2 (amended): if no fragment of the report contains the header marker
`" -"`, the attributor never begins capturing, so it ends with
`task_name_captured = false`; on such a cycle the coordinator dispatches no
unit-specific action — exactly when it consumes the flag it runs only the
default unattributed path — and it never aborts. -/
theorem no_header_default_action (report : List (List Char))
    (bits flag : Bool)
    (h : ∀ m ∈ report, hasSub headerMarker m = false) :
    (recovery_task_cycle bits flag report).attr.task_name_captured = false ∧
    (recovery_task_cycle bits flag report).actions = [] ∧
    (recovery_task_cycle bits flag report).dispatched_default
        = (bits && flag) ∧
    (recovery_task_cycle bits flag report).aborted = false := by
  have hcap : (processReport report).task_name_captured = false :=
    (foldl_no_header report resetAttr h rfl).1
  refine ⟨hcap, ?_, ?_, rfl⟩ <;> simp [recovery_task_cycle, hcap]

theorem no_header_default_action_witness :
    (recovery_task_cycle true true ["hello".toList]).attr.task_name_captured
        = false ∧
    (recovery_task_cycle true true ["hello".toList]).actions = [] ∧
    (recovery_task_cycle true true ["hello".toList]).dispatched_default
        = (true && true) ∧
    (recovery_task_cycle true true ["hello".toList]).aborted = false :=
  no_header_default_action ["hello".toList] true true (by decide)

/-- C3 counterexample: a 32-character detail line between a header and a
terminator is not stored at all — the run ends with
`task_name_captured = false` and an empty buffer, not with a truncated
name as the claim states. -/
theorem long_detail_line_skipped :
    (List.replicate 32 'a').length = MAX_TASK_NAME_LEN ∧
    hasSub headerMarker (List.replicate 32 'a') = false ∧
    hasSub cpuMarker (List.replicate 32 'a') = false ∧
    processReport
        [" - ".toList, List.replicate 32 'a', "0x400d1234 (CPU 0)".toList] =
      { capturing_task_name := false, task_name_captured := false,
        failed_task_name := [] } := by decide

/-- C3 (amended): a detail line (no header marker, no CPU marker) seen
while capturing is stored verbatim when its length is strictly below
`MAX_TASK_NAME_LEN` — it fits the fixed buffer together with its NUL
terminator, so nothing overflows and nothing is in fact truncated — and it
is skipped entirely, leaving the state unchanged, when its length is
`MAX_TASK_NAME_LEN` or more. -/
theorem detail_line_stored_or_skipped (s : AttrState) (msg : List Char)
    (hh : hasSub headerMarker msg = false)
    (hc : hasSub cpuMarker msg = false)
    (hcap : s.capturing_task_name = true) :
    (msg.length < MAX_TASK_NAME_LEN →
        twdt_msg_handler s msg =
          { s with failed_task_name := msg, task_name_captured := true }) ∧
    (MAX_TASK_NAME_LEN ≤ msg.length → twdt_msg_handler s msg = s) := by
  constructor
  · intro hlen
    have h31 : msg.length ≤ MAX_TASK_NAME_LEN - 1 := by
      simp only [MAX_TASK_NAME_LEN] at hlen ⊢; omega
    have htake : msg.take (MAX_TASK_NAME_LEN - 1) = msg :=
      List.take_of_length_le h31
    simp [twdt_msg_handler, hh, hc, hcap, hlen, htake]
  · intro hlen
    simp [twdt_msg_handler, hh, hc, hcap, Nat.not_lt.mpr hlen]

theorem detail_line_stored_or_skipped_witness :
    twdt_msg_handler
        { capturing_task_name := true, task_name_captured := false,
          failed_task_name := [] } ("abc".toList) =
      { capturing_task_name := true, task_name_captured := true,
        failed_task_name := "abc".toList } :=
  (detail_line_stored_or_skipped
      { capturing_task_name := true, task_name_captured := false,
        failed_task_name := [] } ("abc".toList)
      (by decide) (by decide) rfl).1 (by decide)

/-- C4 counterexample: a report with two complete header/detail/terminator
groups, the first parsing to name `"A"` and the second failing to parse
(its detail line has 32 characters): the final result does not hold the
name of the last successfully parsed group — the second group's header
erased the buffer — it holds the empty name with `task_name_captured`
still true. -/
theorem later_group_erases_earlier_name :
    (processReport
        [" - ".toList, "A".toList, "0x400d0001 (CPU 0)".toList] =
      { capturing_task_name := false, task_name_captured := true,
        failed_task_name := "A".toList }) ∧
    (processReport
        [" - ".toList, "A".toList, "0x400d0001 (CPU 0)".toList,
         " - ".toList, List.replicate 32 'c',
         "0x400d0002 (CPU 1)".toList] =
      { capturing_task_name := false, task_name_captured := true,
        failed_task_name := [] }) := by decide

/-- C4 (amended): when the last group of the report parses successfully —
its header fragment is followed by a detail fragment carrying no marker
and fewer than `MAX_TASK_NAME_LEN` characters, then a terminator — the
final result holds exactly that last name with `task_name_captured = true`
regardless of everything before it: the names of all earlier groups are
overwritten and lost.  (When the last group does not parse, even the
previous group's name is lost, because the last header resets the buffer —
see the counterexample.) -/
theorem last_group_wins (prev : List (List Char)) (hdr nm cpuLine : List Char)
    (hh : hasSub headerMarker hdr = true)
    (hn1 : hasSub headerMarker nm = false)
    (hn2 : hasSub cpuMarker nm = false)
    (hn3 : nm.length < MAX_TASK_NAME_LEN)
    (ht1 : hasSub headerMarker cpuLine = false)
    (ht2 : hasSub cpuMarker cpuLine = true) :
    processReport (prev ++ [hdr, nm, cpuLine]) =
      { capturing_task_name := false, task_name_captured := true,
        failed_task_name := nm } := by
  have h31 : nm.length ≤ MAX_TASK_NAME_LEN - 1 := by
    simp only [MAX_TASK_NAME_LEN] at hn3 ⊢; omega
  have htake : nm.take (MAX_TASK_NAME_LEN - 1) = nm :=
    List.take_of_length_le h31
  unfold processReport
  rw [List.foldl_append]
  simp [twdt_msg_handler, hh, hn1, hn2, hn3, ht1, ht2, htake]

theorem last_group_wins_witness :
    processReport
        ([" - ".toList, "test_user".toList, "0x400d1234 (CPU 0)".toList] ++
          [" - ".toList, "test_2_user".toList,
           "0x400d5678 (CPU 1)".toList]) =
      { capturing_task_name := false, task_name_captured := true,
        failed_task_name := "test_2_user".toList } :=
  last_group_wins
    [" - ".toList, "test_user".toList, "0x400d1234 (CPU 0)".toList]
    (" - ".toList) ("test_2_user".toList) ("0x400d5678 (CPU 1)".toList)
    (by decide) (by decide) (by decide) (by decide) (by decide) (by decide)

/-- C5 counterexample: a spurious wake — the recovery bit was posted but
the sticky flag is clear.  The multi-task coordinator still resets the
attribution scratch state and requests the diagnostic snapshot (the report
is even processed all the way to a captured name), contrary to the claim
that it returns to waiting without requesting a snapshot or resetting
scratch state; only the dispatch is skipped. -/
theorem spurious_wake_still_snapshots :
    (recovery_task_cycle true false demoReport).scratch_reset = true ∧
    (recovery_task_cycle true false demoReport).snapshot_requested = true ∧
    (recovery_task_cycle true false demoReport).attr.task_name_captured
        = true ∧
    (recovery_task_cycle true false demoReport).actions = [] := by decide

/-- C5 (amended): on a wake with the sticky flag already clear, neither
coordinator dispatches any recovery action or changes the flag, and both
return to waiting; the single-task coordinator of main.c takes no further
action at all, but the multi-task coordinator still unconditionally resets
the attribution scratch state and requests a diagnostic snapshot before it
examines the flag. -/
theorem spurious_wake_behavior (bits : Bool) (report : List (List Char)) :
    (recovery_task_cycle bits false report).actions = [] ∧
    (recovery_task_cycle bits false report).dispatched_default = false ∧
    (recovery_task_cycle bits false report).flag_after = false ∧
    (recovery_task_cycle bits false report).aborted = false ∧
    (recovery_task_cycle bits false report).scratch_reset = true ∧
    (recovery_task_cycle bits false report).snapshot_requested = true ∧
    (recovery_task_cycle_main bits false).actions = [] ∧
    (recovery_task_cycle_main bits false).flag_after = false ∧
    (recovery_task_cycle_main bits false).snapshot_requested = false ∧
    (recovery_task_cycle_main bits false).scratch_reset = false := by
  simp [recovery_task_cycle, recovery_task_cycle_main]

/-- C6: with the sticky flag set, every code path of the program leaves it
set except the coordinator's iteration: after any step, the flag is clear
if and only if the step was a coordinator iteration that observed the
recovery bit — the single consumer explicitly clearing the flag at the
start of its recovery handling.  An expiry signalled between two
coordinator observations is therefore never silently dropped. -/
theorem flag_cleared_only_by_consumer (s : SysState) (e : SysEvent)
    (h : s.g_watchdog_timeout_occurred = true) :
    (sysStep e s).g_watchdog_timeout_occurred = false ↔
      (∃ report, e = SysEvent.coordWake report) ∧ s.recovery_bit = true := by
  cases e with
  | isrFire w => simp [sysStep, isr_handler_eq]
  | coordWake report =>
      cases hb : s.recovery_bit <;> simp [sysStep, h, hb]
  | testTick r => simp [sysStep, h]
  | test2Tick r => simp [sysStep, h]
  | createEventGroup => simp [sysStep, h]

theorem flag_cleared_only_by_consumer_witness :
    (sysStep (SysEvent.coordWake []) demoSys).g_watchdog_timeout_occurred
        = false ∧
    (sysStep (SysEvent.isrFire false) demoSys).g_watchdog_timeout_occurred
        ≠ false := by
  constructor
  · exact (flag_cleared_only_by_consumer demoSys (SysEvent.coordWake [])
      rfl).mpr ⟨⟨[], rfl⟩, rfl⟩
  · intro hf
    obtain ⟨⟨r, hr⟩, _⟩ :=
      (flag_cleared_only_by_consumer demoSys (SysEvent.isrFire false)
        rfl).mp hf
    exact SysEvent.noConfusion hr

/-- C7: the interrupt handler's entire behaviour as one equation: its only
state changes are setting the sticky flag to true and posting the recovery
bit (exactly when the event group exists), and it requests a deferred
yield exactly when that post unblocked a higher-priority task; every other
component of `SysState` is untouched and it performs no allocation, no
logging and no blocking call. -/
theorem isr_only_sets_flag_and_wakes (s : SysState) (w : Bool) :
    esp_task_wdt_isr_user_handler s w =
      ({ s with g_watchdog_timeout_occurred := true,
                recovery_bit := s.event_group_created || s.recovery_bit },
       { yield_requested := s.event_group_created && w, allocated := false,
         logged := false, blocked := false }) :=
  isr_handler_eq s w

/-- C8: `init_watchdog` configures the watchdog with a 5000 ms timeout and
`trigger_panic = false`, so under the external subsystem's contract an
expiry never aborts the process: it only invokes the custom handler, and
handling is left entirely to the recovery coordinator. -/
theorem init_watchdog_no_panic :
    twdt_config.trigger_panic = false ∧
    twdt_config.timeout_ms = 5000 ∧
    expiryOutcome twdt_config = ExpiryOutcome.invokeHandler ∧
    expiryOutcome twdt_config ≠ ExpiryOutcome.abortProcess := by decide

/-- C9: whenever the attributor ends a report with
`task_name_captured = true`, the stored name has strictly fewer than
`MAX_TASK_NAME_LEN` characters; and a complete header/detail/terminator
group whose detail line has exactly 32 characters leaves
`task_name_captured = false` — the over-long line is skipped, never
stored, so the whole group yields no attribution. -/
theorem captured_name_short :
    (∀ msgs : List (List Char),
        (processReport msgs).task_name_captured = true →
        (processReport msgs).failed_task_name.length < MAX_TASK_NAME_LEN) ∧
    (processReport
        [" - ".toList, List.replicate 32 'b',
         "0x400d1234 (CPU 0)".toList]).task_name_captured = false := by
  constructor
  · intro msgs _
    exact foldl_name_short msgs resetAttr
      (by simp [resetAttr, MAX_TASK_NAME_LEN])
  · decide

theorem captured_name_short_witness :
    (processReport demoReport).failed_task_name.length
        < MAX_TASK_NAME_LEN :=
  captured_name_short.1 demoReport (by decide)

/-- C10: if the interrupt fires while the event group is still null
(before `app_main` created it), the handler still sets the sticky flag but
posts no wake: the recovery bit is unchanged, no yield is requested, and
the coordinator's wait is exactly as ready as before — in particular, if
no wake was pending none becomes pending, so no recovery cycle runs for
this expiry until some later wake posts the bit. -/
theorem isr_before_event_group (s : SysState) (w : Bool)
    (h : s.event_group_created = false) :
    (esp_task_wdt_isr_user_handler s w).1.g_watchdog_timeout_occurred
        = true ∧
    (esp_task_wdt_isr_user_handler s w).1.recovery_bit = s.recovery_bit ∧
    (esp_task_wdt_isr_user_handler s w).2.yield_requested = false ∧
    coordReady (esp_task_wdt_isr_user_handler s w).1 = coordReady s := by
  simp [isr_handler_eq, h, coordReady]

theorem isr_before_event_group_witness :
    (esp_task_wdt_isr_user_handler demoSysEarly false).1.g_watchdog_timeout_occurred
        = true ∧
    coordReady (esp_task_wdt_isr_user_handler demoSysEarly false).1
        = false := by
  have h := isr_before_event_group demoSysEarly false rfl
  exact ⟨h.1, h.2.2.2.trans rfl⟩

end Watchdog
